import Mathlib

/-!
Verification development for `court-booking-api.js` (atgreen/court-booking-api).

The JavaScript source drives a headless browser against a tennis-club booking
site. We embed the decision logic of each workflow step as executable Lean
functions over explicit page-state records: DOM waits that can time out become
`Bool` fields ("did the element appear within the bounded wait"), thrown
exceptions become `Except String`, and the `async-retry` wrapper becomes an
explicit bounded-retry combinator over an attempt-indexed family of outcomes.
Machine-irrelevant browser plumbing (scrolling, logging, fixed settle delays)
has no observable effect on the results and is not represented.
-/

namespace CourtBooking

/-! ## String utilities

`String.prototype.includes(pat)` (used for header matching, heading scanning
and error-message routing) is substring containment; we implement it directly
over character lists. -/

/-- `startsWithB pat l` : `pat` is a prefix of `l` (character lists). -/
def startsWithB : List Char → List Char → Bool
  | [], _ => true
  | _ :: _, [] => false
  | p :: ps, c :: cs => p == c && startsWithB ps cs

/-- `occursIn pat l` : `pat` occurs contiguously somewhere in `l`. -/
def occursIn (pat : List Char) : List Char → Bool
  | [] => startsWithB pat []
  | c :: cs => startsWithB pat (c :: cs) || occursIn pat cs

/-- JS `s.includes(pat)` : substring containment. -/
def containsSub (s pat : String) : Bool := occursIn pat.data s.data

/-! ## The startTime regex

`/^(1[0-2]|0?[1-9]):[0-5][0-9]\s?(AM|PM)$/i` from `reservationSchema`
(line 38; the same pattern appears in the unused helper `validateTimeFormat`,
lines 59-63). The `i` flag only affects the AM/PM letters. Since the regex is
anchored at both ends, backtracking makes the alternation an exact union of
the three hour shapes below. -/

/-- One character of the JS `\s` class. The exotic Unicode space characters
beyond NBSP are omitted; no claim depends on them. -/
def jsSpace (c : Char) : Bool :=
  c == ' ' || c == '\t' || c == '\n' || c == '\r' || c == '\x0b' ||
  c == '\x0c' || c == ' '

def dig09 (c : Char) : Bool := '0' ≤ c && c ≤ '9'

def dig05 (c : Char) : Bool := '0' ≤ c && c ≤ '5'

def dig19 (c : Char) : Bool := '1' ≤ c && c ≤ '9'

def dig02 (c : Char) : Bool := '0' ≤ c && c ≤ '2'

/-- `(AM|PM)` with the `i` flag, anchored at end of input. -/
def matchAP : List Char → Bool
  | [c1, c2] =>
    (c1 == 'A' || c1 == 'a' || c1 == 'P' || c1 == 'p') &&
    (c2 == 'M' || c2 == 'm')
  | _ => false

/-- `\s?(AM|PM)$` : optional single whitespace, then AM/PM. -/
def matchAmPm (l : List Char) : Bool :=
  matchAP l ||
  (match l with
   | c :: rest => jsSpace c && matchAP rest
   | [] => false)

/-- `:[0-5][0-9]\s?(AM|PM)$` : the part after the hour. -/
def matchTail : List Char → Bool
  | ':' :: m1 :: m2 :: rest => dig05 m1 && dig09 m2 && matchAmPm rest
  | _ => false

/-- `^(1[0-2]|0?[1-9])` followed by `matchTail`: the three hour shapes
("10"-"12", zero-padded "01"-"09", bare "1"-"9"). -/
def matchHourTail (l : List Char) : Bool :=
  (match l with
   | '1' :: c :: rest => dig02 c && matchTail rest
   | _ => false) ||
  (match l with
   | '0' :: c :: rest => dig19 c && matchTail rest
   | _ => false) ||
  (match l with
   | c :: rest => dig19 c && matchTail rest
   | _ => false)

/-- Test of the whole anchored regex against a string. -/
def matchesTimeRegex (s : String) : Bool := matchHourTail s.data

/-! ## Day window (`getNextFourDays` / `validateDay`, lines 185-200)

`new Date()` plus `setDate(getDate() + i)` is calendar-day arithmetic; we
model a date as a day count `today : Nat` and
`toLocaleDateString('en-US', weekday: long)` as indexing the seven en-US
weekday names by `day % 7`. The alignment of day 0 with a concrete weekday is
irrelevant to every claim. -/

def dayNames : List String :=
  ["Sunday", "Monday", "Tuesday", "Wednesday", "Thursday", "Friday", "Saturday"]

def weekdayName (day : Nat) : String := dayNames.getD (day % 7) ""

/-- `getNextFourDays()` evaluated when "today" is `today`. -/
def getNextFourDays (today : Nat) : List String :=
  [weekdayName today, weekdayName (today + 1),
   weekdayName (today + 2), weekdayName (today + 3)]

/-- `validateDay(dayOfWeek)` (line 185): recomputes the window at call time. -/
def validateDay (today : Nat) (dayOfWeek : String) : Bool :=
  (getNextFourDays today).contains dayOfWeek

/-! ## Request body and Joi schema (lines 35-41)

The body is modelled already typed (JSON parsing and Joi type conversion are
outside the core). `Joi.number().integer()` is vacuous on an `Int`-typed
field; note the source has no `.positive()` on `courtNumber`. `Joi.string()`
rejects the empty string by default, which is the non-emptiness check below.
`reservationSchema` is a module-level constant: its `valid(...getNextFourDays())`
day set is computed once at process startup (`startupToday`), not per request. -/

structure ReqBody where
  day : String
  courtNumber : Int
  startTime : String
  partnerName : String
  partnerMembershipNumber : String
deriving DecidableEq

/-- `reservationSchema.validate(req.body)` succeeds. -/
def schemaAccepts (startupToday : Nat) (b : ReqBody) : Bool :=
  (getNextFourDays startupToday).contains b.day &&
  matchesTimeRegex b.startTime &&
  !(b.partnerName == "") &&
  !(b.partnerMembershipNumber == "")

/-! ## login (lines 65-104)

The cookie file either does not exist, exists but fails to read/parse/set
(`catch` branch), or loads. The login-form flow is modelled as a family
`flow : Nat → Bool` giving the success of attempt `i` (attempt numbering from
0). `async-retry` with `retries: 3` performs the initial attempt plus up to 3
retries. `retryCount flow k i` runs attempt `i` with `k` retries remaining
and returns (number of attempts performed, success). -/

inductive CookieFile
  | absent
  | unreadable
  | valid (cookies : List String)
deriving DecidableEq

inductive AuthState
  | viaCookies (cookies : List String)
  | viaForm
  | notAuth
deriving DecidableEq

structure LoginRes where
  auth : AuthState
  attemptsMade : Nat
  wroteCookies : Bool
deriving DecidableEq

def retryCount (flow : Nat → Bool) : Nat → Nat → Nat × Bool
  | 0, i => (1, flow i)
  | k + 1, i =>
    if flow i then (1, true)
    else
      let r := retryCount flow k (i + 1)
      (r.1 + 1, r.2)

/-- `login(page)`. When the cookie file exists (`fs.existsSync`), the function
either sets the loaded cookies and returns, or — on a read/parse/set failure —
logs and returns from inside the `catch` WITHOUT running the form flow, since
the form flow sits in the `else` branch of the `existsSync` test. Only when
the file does not exist is the retried form flow run; on success the cookies
are written. -/
def login (cf : CookieFile) (flow : Nat → Bool) : Except String LoginRes :=
  match cf with
  | .valid cookies => .ok ⟨.viaCookies cookies, 0, false⟩
  | .unreadable => .ok ⟨.notAuth, 0, false⟩
  | .absent =>
    let r := retryCount flow 3 0
    if r.2 then .ok ⟨.viaForm, r.1, true⟩
    else .error "login attempts exhausted"

/-! ## The slot grid and extractOpenCourts (lines 158-183)

A row is its full `td` list; position 0 is the time-label cell. `text` is the
trimmed `textContent`, `isOpen` is `classList.contains('open')`, and `div` is
the cell's first `div` descendant: `none` when there is no such `div` (then
`cell.$eval('div', ...)` rejects), `some attr` when it exists with
`data-start-time` attribute `attr` (`none` when the attribute is absent, which
`|| ''` turns into the empty string). In a flat table the DOM `cellIndex` of
the cell at list position `i` is `i`. -/

structure Cell where
  isOpen : Bool
  text : String
  div : Option (Option String)
deriving DecidableEq

structure SlotGrid where
  headers : List String
  rows : List (List Cell)
deriving DecidableEq

structure OpenCourtEntry where
  court : Nat
  time : String
deriving DecidableEq

/-- The `for (let i = 1; ...)` body of `extractOpenCourts` over the cells of
one row, starting at cell index `i`. -/
def extractCells : List Cell → Nat → Except String (List OpenCourtEntry)
  | [], _ => .ok []
  | c :: rest, i =>
    if c.isOpen then
      match c.div with
      | none => .error "failed to find element matching selector div"
      | some attr =>
        match extractCells rest (i + 1) with
        | .error e => .error e
        | .ok l => .ok (⟨i, attr.getD ""⟩ :: l)
    else extractCells rest (i + 1)

def extractRows : List (List Cell) → Except String (List OpenCourtEntry)
  | [] => .ok []
  | r :: rest =>
    match extractCells (r.drop 1) 1 with
    | .error e => .error e
    | .ok e1 =>
      match extractRows rest with
      | .error e => .error e
      | .ok e2 => .ok (e1 ++ e2)

/-- `extractOpenCourts(page)` over the grid. -/
def extractOpenCourts (g : SlotGrid) : Except String (List OpenCourtEntry) :=
  extractRows g.rows

/-- The attribute value the spec ascribes to a cell ("the cell's declared
start-time attribute, empty string if the attribute is absent"). -/
def cellAttrTime (c : Cell) : String := (c.div.getD none).getD ""

/-- Modelled from the spec's words (section 4.3 / section 8), for comparison
with `extractOpenCourts`: skip the first column of every row, keep open cells
in row-then-column order, record column position and start-time attribute. -/
def specOpenCourts (g : SlotGrid) : List OpenCourtEntry :=
  (g.rows.map (fun r =>
    (r.enum.drop 1).filterMap (fun p =>
      if p.2.isOpen then some ⟨p.1, cellAttrTime p.2⟩ else none))).flatten

/-! ## findAndClickSlot (lines 231-283)

Row search: first row whose first `td`'s trimmed text equals `startTime`; a
row with no `td` makes `timeCell.evaluate` reject (modelled as an error).
Column search: header cells from index 1, first whose text contains
`Court <courtNumber>`. Cell access `cells[courtIndex]` on a too-short row
gives `undefined`, whose `.evaluate` rejects. `.ok true` corresponds to the
open cell having been clicked; the caller records the click. -/

def rowMatches (startTime : String) (r : List Cell) : Bool :=
  match r.head? with
  | none => false
  | some c => c.text == startTime

def findRowE : List (List Cell) → String → Except String (Option (List Cell))
  | [], _ => .ok none
  | r :: rest, t =>
    match r.head? with
    | none => .error "cannot read time cell"
    | some c => if c.text == t then .ok (some r) else findRowE rest t

def findCourtIdxAux (courtNumber : Int) : List String → Nat → Option Nat
  | [], _ => none
  | h :: rest, i =>
    if containsSub h ("Court " ++ toString courtNumber) then some i
    else findCourtIdxAux courtNumber rest (i + 1)

def findCourtIdx (headers : List String) (courtNumber : Int) : Option Nat :=
  findCourtIdxAux courtNumber (headers.drop 1) 1

def findAndClickSlot (g : SlotGrid) (courtNumber : Int) (startTime : String) :
    Except String Bool :=
  match findRowE g.rows startTime with
  | .error e => .error e
  | .ok none => .ok false
  | .ok (some row) =>
    match findCourtIdx g.headers courtNumber with
    | none => .ok false
    | some ci =>
      match row.get? ci with
      | none => .error "cannot read slot cell"
      | some cell => .ok cell.isOpen

/-- Declarative slot lookup: the intersecting cell of the matching time row
and the matching court column, when both exist. -/
def slotLookup (g : SlotGrid) (courtNumber : Int) (startTime : String) :
    Option Cell :=
  match g.rows.find? (rowMatches startTime), findCourtIdx g.headers courtNumber with
  | some row, some ci => row.get? ci
  | _, _ => none

/-- The requested slot exists and is marked open. -/
def slotIsOpen (g : SlotGrid) (courtNumber : Int) (startTime : String) : Bool :=
  match slotLookup g courtNumber startTime with
  | some c => c.isOpen
  | none => false

/-! ## addPartnerToBooking (lines 285-337)

The first statement is `page.waitForSelector(plus-icon xpath, timeout 5000)`,
which REJECTS when the control does not appear within the wait; the tolerant
"Link with plus icon not found" branch is reachable only when the wait
succeeds but the subsequent `$$` query returns no handle. `autoItems` is the
list of `memberNumber` fields parsed from the autocomplete entries. The
returned Bool records whether the plus link was clicked. -/

structure PartnerPage where
  plusAtWait : Bool
  plusAtQuery : Bool
  inputAppears : Bool
  autoItems : List String
  listAppears : Bool
deriving DecidableEq

def addPartnerToBooking (pp : PartnerPage)
    (_partnerName partnerMembershipNumber : String) : Except String Bool :=
  if !pp.plusAtWait then
    .error "waiting for plus-icon selector failed: timeout 5000ms exceeded"
  else
    let clicked := pp.plusAtQuery
    if !pp.inputAppears then
      .error "waiting for player input selector failed"
    else if !pp.listAppears then
      .error "waiting for autocomplete selector failed: timeout 5000ms exceeded"
    else if pp.autoItems.contains partnerMembershipNumber then .ok clicked
    else .error "Partner not found in autocomplete list."

/-! ## confirmBooking (lines 339-373)

`savePresent` collapses the save-button wait and handle query (absence either
way raises a non-restriction error). `headings` is the list of `h1`
`textContent`s after the save click. -/

def confirmBooking (savePresent : Bool) (headings : List String) :
    Except String Unit :=
  if savePresent then
    if headings.any (fun h => containsSub h "Restriction") then
      .error "Booking restricted"
    else .ok ()
  else .error "Save button not found."

/-! ## reserveCourt (lines 375-405), with an action trace

`reserveCourt` runs every step ONCE — it has no retry wrapper. The trace
records the externally-visible actions: navigation, the date click attempt,
the slot-cell click, partner attachment, confirmation. -/

inductive Action
  | navigate
  | clickDate
  | clickSlot
  | attachPartner
  | confirmB
deriving DecidableEq

structure ReservePage where
  dateFound : Bool
  gridOk : Bool
  grid : SlotGrid
  partner : PartnerPage
  savePresent : Bool
  headings : List String
deriving DecidableEq

def slotNotFoundMsg (startTime : String) (courtNumber : Int) : String :=
  "Time slot at " ++ startTime ++ " on court " ++ toString courtNumber ++
  " not found or not available."

def reserveCourtTrace (pg : ReservePage) (dayOfWeek : String)
    (courtNumber : Int) (startTime partnerName partnerMembershipNumber : String) :
    Except String String × List Action :=
  if !pg.dateFound then
    (.error ("Date \"" ++ dayOfWeek ++ "\" not found."), [.navigate, .clickDate])
  else if !pg.gridOk then
    (.error "waiting for slots selector failed", [.navigate, .clickDate])
  else
    match findAndClickSlot pg.grid courtNumber startTime with
    | .error e => (.error e, [.navigate, .clickDate])
    | .ok false =>
      (.error (slotNotFoundMsg startTime courtNumber), [.navigate, .clickDate])
    | .ok true =>
      match addPartnerToBooking pg.partner partnerName partnerMembershipNumber with
      | .error e => (.error e, [.navigate, .clickDate, .clickSlot, .attachPartner])
      | .ok _ =>
        match confirmBooking pg.savePresent pg.headings with
        | .error e =>
          (.error e, [.navigate, .clickDate, .clickSlot, .attachPartner, .confirmB])
        | .ok _ =>
          (.ok "Court reserved successfully",
           [.navigate, .clickDate, .clickSlot, .attachPartner, .confirmB])

/-! ## getOpenCourts (lines 106-133)

The retried body navigates, waits for the date picker, runs
`findAndClickDate` (whose own `waitForSelector` rejects when the day link
never appears — `dayAtWait`; `dayAtQuery` is the subsequent `$$` query), waits
for the grid, and assigns `openCourts = extractOpenCourts(page)`. When
`findAndClickDate` resolves `false` the body returns `[]` early: that is a
SUCCESSFUL attempt for `async-retry`, and the outer `openCourts` variable
keeps its previous value (initially `null`, modelled as `none`). -/

structure OpenAttempt where
  navOk : Bool
  pickerOk : Bool
  dayAtWait : Bool
  dayAtQuery : Bool
  gridOk : Bool
  grid : SlotGrid
deriving DecidableEq

def openAttemptBody (a : OpenAttempt) (prev : Option (List OpenCourtEntry)) :
    Except String (Option (List OpenCourtEntry)) :=
  if !a.navOk then .error "goto failed"
  else if !a.pickerOk then .error "waiting for date-picker selector failed"
  else if !a.dayAtWait then .error "waiting for day-link selector failed"
  else if !a.dayAtQuery then .ok prev
  else if !a.gridOk then .error "waiting for slots selector failed"
  else
    match extractOpenCourts a.grid with
    | .error e => .error e
    | .ok l => .ok (some l)

def getOpenCourtsLoop (attempts : Nat → OpenAttempt) :
    Nat → Nat → Option (List OpenCourtEntry) →
    Except String (Option (List OpenCourtEntry))
  | 0, i, acc => openAttemptBody (attempts i) acc
  | k + 1, i, acc =>
    match openAttemptBody (attempts i) acc with
    | .ok v => .ok v
    | .error _ => getOpenCourtsLoop attempts k (i + 1) acc

/-- `getOpenCourts(page, dayOfWeek)` : `openCourts = null` then the retried
body (`retries: 3` = initial attempt plus up to 3 retries), then return
`openCourts`. -/
def getOpenCourts (attempts : Nat → OpenAttempt) :
    Except String (Option (List OpenCourtEntry)) :=
  getOpenCourtsLoop attempts 3 0 none

/-! ## The two HTTP handlers (lines 202-229 and 407-438) -/

inductive OpenResp
  | badRequest (msg : String)
  | okResp (day : String) (openCourts : Option (List OpenCourtEntry))
  | serverError
deriving DecidableEq

def openStatusOf : OpenResp → Nat
  | .badRequest _ => 400
  | .okResp _ _ => 200
  | .serverError => 500

def openCourtsHandler (requestToday : Nat) (dayParam : Option String)
    (cf : CookieFile) (flow : Nat → Bool) (attempts : Nat → OpenAttempt) :
    OpenResp :=
  match dayParam with
  | none => .badRequest "Day parameter is required"
  | some d =>
    if validateDay requestToday d then
      match login cf flow with
      | .error _ => .serverError
      | .ok _ =>
        match getOpenCourts attempts with
        | .error _ => .serverError
        | .ok v => .okResp d v
    else .badRequest "Day must be within the next 4 days"

inductive ReserveResp
  | badRequest
  | success (message : String)
  | restricted
  | serverError
deriving DecidableEq

def statusOf : ReserveResp → Nat
  | .badRequest => 400
  | .success _ => 200
  | .restricted => 403
  | .serverError => 500

/-- The `success` field of the JSON body (`none` for the 400 body, which has
only an `error` field). -/
def successFlag : ReserveResp → Option Bool
  | .badRequest => none
  | .success _ => some true
  | .restricted => some false
  | .serverError => some false

/-- The `catch` block of the reserve handler:
`error.message.includes('Booking restricted')` selects 403, anything else 500. -/
def reserveErrorResponse (e : String) : ReserveResp :=
  if containsSub e "Booking restricted" then .restricted else .serverError

structure ReserveScenario where
  cf : CookieFile
  flow : Nat → Bool
  pg : ReservePage

/-- The reserve-court handler. The Bool records whether a browser session was
launched (launch happens only after schema validation passes). -/
def reserveHandler (startupToday : Nat) (b : ReqBody) (sc : ReserveScenario) :
    ReserveResp × Bool :=
  if schemaAccepts startupToday b then
    match login sc.cf sc.flow with
    | .error e => (reserveErrorResponse e, true)
    | .ok _ =>
      match (reserveCourtTrace sc.pg b.day b.courtNumber b.startTime
              b.partnerName b.partnerMembershipNumber).1 with
      | .ok m => (.success m, true)
      | .error e => (reserveErrorResponse e, true)
  else (.badRequest, false)

/-! ## Small executable helpers and concrete fixtures for witnesses -/

def isOkB {ε α : Type} : Except ε α → Bool
  | .ok _ => true
  | .error _ => false

def timeCell9 : Cell := ⟨false, "9:00 AM", none⟩

def timeCell10 : Cell := ⟨false, "10:00 AM", none⟩

def openCell9 : Cell := ⟨true, "", some (some "9:00 AM")⟩

def closedCell : Cell := ⟨false, "", none⟩

/-- The section-8 example grid: 9:00 AM row with court 1 open, 10:00 AM row
with nothing open; headers for two courts. -/
def gridW : SlotGrid :=
  ⟨["Time", "Court 1", "Court 2"],
   [[timeCell9, openCell9, closedCell], [timeCell10, closedCell, closedCell]]⟩

def partnerW : PartnerPage := ⟨true, true, true, ["123"], true⟩

/-- Race case: plus-icon wait succeeds, handle query finds nothing. -/
def partnerRace : PartnerPage := ⟨true, false, true, ["123"], true⟩

/-- Plus icon never appears within the bounded wait. -/
def partnerNoPlus : PartnerPage := ⟨false, true, true, ["123"], true⟩

def pageW : ReservePage := ⟨true, true, gridW, partnerW, true, []⟩

/-- Reservation page where the requested day's link is not found. -/
def pageNoDate : ReservePage := ⟨false, true, gridW, partnerW, true, []⟩

def scenarioW : ReserveScenario := ⟨.valid ["c"], fun _ => true, pageW⟩

/-- A fully-working open-courts attempt over the example grid. -/
def attemptOk : OpenAttempt := ⟨true, true, true, true, true, gridW⟩

/-- Attempt whose navigation fails. -/
def attemptNavFail : OpenAttempt := ⟨false, true, true, true, true, gridW⟩

/-- Attempt where the day link resolves not-found (query race). -/
def attemptNoDay : OpenAttempt := ⟨true, true, true, false, true, gridW⟩

/-! ## Helper lemmas -/

theorem weekdayName_mod_arg (t k : Nat) :
    weekdayName (t + k) = weekdayName (t % 7 + k) := by
  unfold weekdayName
  congr 1
  omega

theorem getNextFourDays_mod (t : Nat) :
    getNextFourDays t = getNextFourDays (t % 7) := by
  unfold getNextFourDays
  rw [show weekdayName t = weekdayName (t % 7) by
        have h := weekdayName_mod_arg t 0
        simpa using h,
      weekdayName_mod_arg t 1, weekdayName_mod_arg t 2, weekdayName_mod_arg t 3]

theorem nextFourDays_nodup (t : Nat) : (getNextFourDays t).Nodup := by
  have h : ∀ r, r < 7 → (getNextFourDays r).Nodup := by decide
  rw [getNextFourDays_mod]
  exact h (t % 7) (Nat.mod_lt _ (by norm_num))

theorem validateDay_iff (t : Nat) (d : String) :
    validateDay t d = true ↔
      (d = weekdayName t ∨ d = weekdayName (t + 1) ∨
       d = weekdayName (t + 2) ∨ d = weekdayName (t + 3)) := by
  simp [validateDay, getNextFourDays, List.contains]

/-! ## Claim theorems -/

/-- C7 (amended): `validateDay(d)` is true exactly when `d` is one of the 4
weekday names of the rolling window today + next 3 days computed at call time,
and false for any other string; the window always has exactly 4 distinct
members. The reservation endpoint's accepted day set, however, is the window
computed once at process startup (the schema is a module-level constant), so a
schema-accepted day always lies in the STARTUP window. -/
theorem c7_day_window (t : Nat) (d : String) :
    (validateDay t d = true ↔
      (d = weekdayName t ∨ d = weekdayName (t + 1) ∨
       d = weekdayName (t + 2) ∨ d = weekdayName (t + 3))) ∧
    (getNextFourDays t).length = 4 ∧
    (getNextFourDays t).Nodup ∧
    (∀ b : ReqBody, schemaAccepts t b = true → b.day ∈ getNextFourDays t) := by
  refine ⟨validateDay_iff t d, rfl, nextFourDays_nodup t, ?_⟩
  intro b hb
  simp only [schemaAccepts, Bool.and_eq_true] at hb
  have h := hb.1.1.1
  simpa [getNextFourDays] using h

/-- C7 witness: concrete instance of the amended window facts. -/
theorem c7_day_window_witness :
    validateDay 0 "Sunday" = true ∧ (getNextFourDays 0).Nodup :=
  ⟨(c7_day_window 0 "Sunday").1.mpr (Or.inl rfl), (c7_day_window 0 "Sunday").2.2.1⟩

/-- C7 counterexample: the claim as stated is false. With the process started
at day 0, a request arriving at day 1 for the weekday of day 4 passes
`validateDay` (the per-request rolling window) but is rejected by the
reservation schema, whose `valid(...getNextFourDays())` set was frozen at
startup — so the reservation endpoint's accepted day set is NOT recomputed
per request. All other fields of the body are schema-valid. -/
theorem c7_day_window_cex :
    validateDay 1 (weekdayName 4) = true ∧
    matchesTimeRegex "10:00 AM" = true ∧
    schemaAccepts 0 ⟨weekdayName 4, 1, "10:00 AM", "Al", "123"⟩ = false := by
  decide

/-- C3 (code bug): when the stored cookie file loads, the cookies are set into
the session and the form flow is skipped (first conjunct — the form flow would
fail, yet login succeeds via cookies with 0 attempts). But when the file
exists and fails to load or parse, `login` returns from the `catch` branch
WITHOUT running the form flow (which sits in the `else` of the `existsSync`
check): even with a form flow that would succeed on its first attempt, the
function returns an unauthenticated session, 0 form attempts made, nothing
written — contradicting both the spec and the code's own
"No cookies found. Logging in." log message. -/
theorem c3_cookie_fallthrough :
    login (.valid ["c0"]) (fun _ => false) =
      .ok ⟨.viaCookies ["c0"], 0, false⟩ ∧
    login .unreadable (fun _ => true) = .ok ⟨.notAuth, 0, false⟩ :=
  ⟨rfl, rfl⟩

/-- C4 (amended): with no stored cookie file, the login-form flow is attempted
at most 4 times — the initial attempt plus up to 3 retries (`async-retry`
with `retries: 3`). A flow failing twice then succeeding on the third attempt
yields an authenticated session with cookies persisted after 3 attempts; a
flow failing on attempts 0..3 yields a fatal error for the request; and the
outcome depends only on attempts 0..3 (no fifth attempt is ever consulted). -/
theorem c4_login_retry (flow : Nat → Bool) :
    (flow 0 = false → flow 1 = false → flow 2 = true →
      login .absent flow = .ok ⟨.viaForm, 3, true⟩) ∧
    ((∀ i, i ≤ 3 → flow i = false) → login .absent flow = .error "login attempts exhausted") ∧
    (∀ flow' : Nat → Bool, (∀ i, i ≤ 3 → flow i = flow' i) →
      login .absent flow = login .absent flow') := by
  refine ⟨?_, ?_, ?_⟩
  · intro h0 h1 h2
    simp [login, retryCount, h0, h1, h2]
  · intro h
    simp [login, retryCount, h 0 (by omega), h 1 (by omega), h 2 (by omega),
      h 3 (by omega)]
  · intro flow' h
    simp only [login, retryCount, h 0 (by omega), h 1 (by omega),
      h 2 (by omega), h 3 (by omega)]

/-- C4 witness: a flow failing twice then succeeding on the third attempt
yields an authenticated form-login session with cookies written, in exactly 3
attempts. -/
theorem c4_login_retry_witness :
    login .absent (fun i => i == 2) = .ok ⟨.viaForm, 3, true⟩ :=
  (c4_login_retry (fun i => i == 2)).1 rfl rfl rfl

/-- C4 counterexample: the claim as stated is false. A flow that fails on
attempts 0, 1 and 2 — i.e. on all 3 attempts the claim allows — does NOT
yield a fatal error: a fourth attempt is performed and, succeeding, yields an
authenticated session after 4 attempts. -/
theorem c4_login_retry_cex :
    login .absent (fun i => decide (3 ≤ i)) = .ok ⟨.viaForm, 4, true⟩ := rfl

theorem enum_drop_one (r : List Cell) :
    r.enum.drop 1 = List.enumFrom 1 (r.drop 1) := by
  cases r <;> rfl

theorem extractCells_eq (cs : List Cell) (i : Nat)
    (h : ∀ c ∈ cs, c.isOpen = true → c.div ≠ none) :
    extractCells cs i = .ok ((List.enumFrom i cs).filterMap
      (fun p => if p.2.isOpen then some ⟨p.1, cellAttrTime p.2⟩ else none)) := by
  induction cs generalizing i with
  | nil => rfl
  | cons c rest ih =>
    have hc := h c (List.mem_cons_self _ _)
    have hrest : ∀ x ∈ rest, x.isOpen = true → x.div ≠ none :=
      fun x hx => h x (List.mem_cons_of_mem _ hx)
    cases hop : c.isOpen with
    | false =>
      simp [extractCells, hop, ih (i + 1) hrest, List.enumFrom, List.filterMap_cons]
    | true =>
      cases hdiv : c.div with
      | none => exact absurd hdiv (hc hop)
      | some attr =>
        simp [extractCells, hop, hdiv, ih (i + 1) hrest, cellAttrTime,
          List.enumFrom, List.filterMap_cons]

theorem extractRows_eq (rows : List (List Cell))
    (h : ∀ r ∈ rows, ∀ c ∈ r, c.isOpen = true → c.div ≠ none) :
    extractRows rows = .ok ((rows.map (fun r =>
      (r.enum.drop 1).filterMap
        (fun p => if p.2.isOpen then some ⟨p.1, cellAttrTime p.2⟩ else none))).flatten) := by
  induction rows with
  | nil => rfl
  | cons r rest ih =>
    have hr : ∀ c ∈ r.drop 1, c.isOpen = true → c.div ≠ none :=
      fun c hc => h r (List.mem_cons_self _ _) c (List.drop_subset _ _ hc)
    have hrest : ∀ x ∈ rest, ∀ c ∈ x, c.isOpen = true → c.div ≠ none :=
      fun x hx => h x (List.mem_cons_of_mem _ hx)
    simp only [extractRows, extractCells_eq (r.drop 1) 1 hr, ih hrest,
      List.map_cons, List.flatten_cons, enum_drop_one r]

/-- C6: `extractOpenCourts` enumerates grid rows top-to-bottom, skips the
first (time-label) column of each row, and emits one entry per open cell with
`court` the cell's column position and `time` the declared start-time
attribute (empty string when the attribute is absent), in row-then-column
order with no de-duplication or sorting — it equals the list computed
directly from the spec's words (`specOpenCourts`). The hypothesis asks every
open cell to carry its inner `div` element (otherwise the attribute read
rejects). -/
theorem c6_extract_open_courts (g : SlotGrid)
    (h : ∀ r ∈ g.rows, ∀ c ∈ r, c.isOpen = true → c.div ≠ none) :
    extractOpenCourts g = .ok (specOpenCourts g) := by
  unfold extractOpenCourts specOpenCourts
  exact extractRows_eq g.rows h

/-- C6 witness: the spec's section-8 example grid — a 9:00 AM row with court 1
open and a 10:00 AM row with nothing open — yields exactly
`[{court := 1, time := "9:00 AM"}]`. -/
theorem c6_extract_open_courts_witness :
    extractOpenCourts gridW = .ok [⟨1, "9:00 AM"⟩] :=
  (c6_extract_open_courts gridW (by decide)).trans rfl

theorem findRowE_eq_find (rows : List (List Cell)) (t : String)
    (h : ∀ r ∈ rows, r ≠ []) :
    findRowE rows t = .ok (rows.find? (rowMatches t)) := by
  induction rows with
  | nil => rfl
  | cons r rest ih =>
    have hr := h r (List.mem_cons_self _ _)
    have hrest : ∀ x ∈ rest, x ≠ [] := fun x hx => h x (List.mem_cons_of_mem _ hx)
    cases r with
    | nil => exact absurd rfl hr
    | cons c cs =>
      cases hct : (c.text == t) with
      | true =>
        rw [List.find?_cons_of_pos _ (by simp [rowMatches, hct])]
        simp [findRowE, hct]
      | false =>
        rw [List.find?_cons_of_neg _ (by simp [rowMatches, hct])]
        simp [findRowE, hct, ih hrest]

theorem findCourtIdxAux_lt (n : Int) (l : List String) (j i : Nat)
    (h : findCourtIdxAux n l j = some i) : i < j + l.length := by
  induction l generalizing j with
  | nil => simp [findCourtIdxAux] at h
  | cons hd tl ih =>
    by_cases hc : containsSub hd ("Court " ++ toString n)
    · simp [findCourtIdxAux, hc] at h
      simp [List.length_cons]
      omega
    · simp [findCourtIdxAux, hc] at h
      have := ih (j + 1) h
      simp [List.length_cons]
      omega

theorem findCourtIdx_lt (headers : List String) (n : Int) (i : Nat)
    (h : findCourtIdx headers n = some i) : i < headers.length := by
  unfold findCourtIdx at h
  cases headers with
  | nil => simp [findCourtIdxAux] at h
  | cons a as =>
    have := findCourtIdxAux_lt n as 1 i (by simpa using h)
    simp [List.length_cons]
    omega

theorem findAndClickSlot_eq (g : SlotGrid) (n : Int) (t : String)
    (h1 : ∀ r ∈ g.rows, r ≠ [])
    (h2 : ∀ r ∈ g.rows, g.headers.length ≤ r.length) :
    findAndClickSlot g n t = .ok (slotIsOpen g n t) := by
  unfold findAndClickSlot slotIsOpen slotLookup
  rw [findRowE_eq_find g.rows t h1]
  cases hf : g.rows.find? (rowMatches t) with
  | none => rfl
  | some row =>
    cases hci : findCourtIdx g.headers n with
    | none => rfl
    | some ci =>
      have hmem : row ∈ g.rows := List.mem_of_find?_eq_some hf
      have hlt : ci < row.length :=
        lt_of_lt_of_le (findCourtIdx_lt _ _ _ hci) (h2 row hmem)
      have hg2 : row[ci]? = some (row.get ⟨ci, hlt⟩) := by
        simp [List.getElem?_eq_getElem hlt, List.get_eq_getElem]
      simp [hg2]

theorem slotIsOpen_false_iff (g : SlotGrid) (n : Int) (t : String)
    (h2 : ∀ r ∈ g.rows, g.headers.length ≤ r.length) :
    slotIsOpen g n t = false ↔
      (g.rows.find? (rowMatches t) = none ∨
       findCourtIdx g.headers n = none ∨
       ∃ c, slotLookup g n t = some c ∧ c.isOpen = false) := by
  constructor
  · intro hfalse
    cases hf : g.rows.find? (rowMatches t) with
    | none => exact Or.inl rfl
    | some row =>
      cases hci : findCourtIdx g.headers n with
      | none => exact Or.inr (Or.inl rfl)
      | some ci =>
        have hmem : row ∈ g.rows := List.mem_of_find?_eq_some hf
        have hlt : ci < row.length :=
          lt_of_lt_of_le (findCourtIdx_lt _ _ _ hci) (h2 row hmem)
        have hg2 : row[ci]? = some (row.get ⟨ci, hlt⟩) := by
          simp [List.getElem?_eq_getElem hlt, List.get_eq_getElem]
        refine Or.inr (Or.inr ⟨row.get ⟨ci, hlt⟩, ?_, ?_⟩)
        · simp [slotLookup, hf, hci, hg2]
        · simpa [slotIsOpen, slotLookup, hf, hci, hg2] using hfalse
  · intro h
    rcases h with hf | hci | ⟨c, hl, hc⟩
    · simp [slotIsOpen, slotLookup, hf]
    · cases hf : g.rows.find? (rowMatches t) <;>
        simp [slotIsOpen, slotLookup, hf, hci]
    · simp [slotIsOpen, hl, hc]

theorem reserveCourtTrace_closed (pg : ReservePage) (day : String) (n : Int)
    (t nm mem : String)
    (h1 : ∀ r ∈ pg.grid.rows, r ≠ [])
    (h2 : ∀ r ∈ pg.grid.rows, pg.grid.headers.length ≤ r.length)
    (hd : pg.dateFound = true) (hg : pg.gridOk = true)
    (hfalse : slotIsOpen pg.grid n t = false) :
    reserveCourtTrace pg day n t nm mem =
      (.error (slotNotFoundMsg t n), [.navigate, .clickDate]) := by
  simp only [reserveCourtTrace, hd, hg, Bool.not_true, Bool.false_eq_true,
    if_false, findAndClickSlot_eq pg.grid n t h1 h2, hfalse]

theorem reserveCourtTrace_open_snd (pg : ReservePage) (day : String) (n : Int)
    (t nm mem : String)
    (h1 : ∀ r ∈ pg.grid.rows, r ≠ [])
    (h2 : ∀ r ∈ pg.grid.rows, pg.grid.headers.length ≤ r.length)
    (hd : pg.dateFound = true) (hg : pg.gridOk = true)
    (htrue : slotIsOpen pg.grid n t = true) :
    (reserveCourtTrace pg day n t nm mem).2 =
      [.navigate, .clickDate, .clickSlot, .attachPartner] ++
      (if isOkB (addPartnerToBooking pg.partner nm mem) then [Action.confirmB]
       else []) := by
  simp only [reserveCourtTrace, hd, hg, Bool.not_true, Bool.false_eq_true,
    if_false, findAndClickSlot_eq pg.grid n t h1 h2, htrue]
  cases hap : addPartnerToBooking pg.partner nm mem with
  | error e => simp [isOkB]
  | ok b =>
    cases hconf : confirmBooking pg.savePresent pg.headings <;> simp [isOkB]

/-- C1: with the day selected and the grid loaded (well-formed: every row has
its time cell and at least as many cells as there are header columns), the
workflow terminates with the slot-unavailable failure — touching neither
partner attachment nor confirmation — exactly under the claim's conditions:
no row whose time label equals the requested start time, or no column header
containing "Court n", or an intersecting cell that is not marked open. When
the intersecting cell is open, the cell is clicked and the workflow proceeds
to partner attachment and then (when attachment succeeds) to confirmation. -/
theorem c1_slot_gating (pg : ReservePage) (day : String) (n : Int)
    (t nm mem : String)
    (h1 : ∀ r ∈ pg.grid.rows, r ≠ [])
    (h2 : ∀ r ∈ pg.grid.rows, pg.grid.headers.length ≤ r.length)
    (hd : pg.dateFound = true) (hg : pg.gridOk = true) :
    (slotIsOpen pg.grid n t = false ↔
      (pg.grid.rows.find? (rowMatches t) = none ∨
       findCourtIdx pg.grid.headers n = none ∨
       ∃ c, slotLookup pg.grid n t = some c ∧ c.isOpen = false)) ∧
    (slotIsOpen pg.grid n t = false →
      reserveCourtTrace pg day n t nm mem =
        (.error (slotNotFoundMsg t n), [.navigate, .clickDate]) ∧
      Action.attachPartner ∉ (reserveCourtTrace pg day n t nm mem).2 ∧
      Action.confirmB ∉ (reserveCourtTrace pg day n t nm mem).2) ∧
    (slotIsOpen pg.grid n t = true →
      (reserveCourtTrace pg day n t nm mem).2 =
        [.navigate, .clickDate, .clickSlot, .attachPartner] ++
        (if isOkB (addPartnerToBooking pg.partner nm mem) then [Action.confirmB]
         else []) ∧
      Action.clickSlot ∈ (reserveCourtTrace pg day n t nm mem).2 ∧
      Action.attachPartner ∈ (reserveCourtTrace pg day n t nm mem).2 ∧
      (isOkB (addPartnerToBooking pg.partner nm mem) = true →
        Action.confirmB ∈ (reserveCourtTrace pg day n t nm mem).2)) := by
  refine ⟨slotIsOpen_false_iff pg.grid n t h2, ?_, ?_⟩
  · intro hfalse
    rw [reserveCourtTrace_closed pg day n t nm mem h1 h2 hd hg hfalse]
    refine ⟨rfl, by simp, by simp⟩
  · intro htrue
    have hsnd := reserveCourtTrace_open_snd pg day n t nm mem h1 h2 hd hg htrue
    refine ⟨hsnd, ?_, ?_, ?_⟩
    · rw [hsnd]; cases isOkB (addPartnerToBooking pg.partner nm mem) <;> simp
    · rw [hsnd]; cases isOkB (addPartnerToBooking pg.partner nm mem) <;> simp
    · intro hok
      rw [hsnd, hok]
      simp

/-- C1 witness: on the example grid, court 2 at 9:00 AM exists but is closed,
so the reservation run reports the slot-unavailable error after only the
navigate and date-click actions. -/
theorem c1_slot_gating_witness :
    reserveCourtTrace pageW "Monday" 2 "9:00 AM" "Al" "123" =
      (.error (slotNotFoundMsg "9:00 AM" 2), [.navigate, .clickDate]) :=
  ((c1_slot_gating pageW "Monday" 2 "9:00 AM" "Al" "123" (by decide) (by decide)
      rfl rfl).2.1 (by decide)).1

theorem getOpenCourts_eq_four (attempts : Nat → OpenAttempt) :
    getOpenCourts attempts =
      (match openAttemptBody (attempts 0) none with
       | .ok v => .ok v
       | .error _ =>
         match openAttemptBody (attempts 1) none with
         | .ok v => .ok v
         | .error _ =>
           match openAttemptBody (attempts 2) none with
           | .ok v => .ok v
           | .error _ => openAttemptBody (attempts 3) none) := rfl

theorem reserveCourtTrace_snd_cases (pg : ReservePage) (day : String)
    (n : Int) (t nm mem : String) :
    (reserveCourtTrace pg day n t nm mem).2 = [.navigate, .clickDate] ∨
    (reserveCourtTrace pg day n t nm mem).2 =
      [.navigate, .clickDate, .clickSlot, .attachPartner] ∨
    (reserveCourtTrace pg day n t nm mem).2 =
      [.navigate, .clickDate, .clickSlot, .attachPartner, .confirmB] := by
  unfold reserveCourtTrace
  repeat' split
  all_goals simp

/-- C5 (amended): on the open-courts path the navigate → pick-day → settle →
grid-ready (and extract) sequence runs under `async-retry`: a failed first
attempt is re-run (a fully successful second attempt's result is returned),
the result depends on attempts 0..3 only (initial attempt plus 3 retries),
and exhausting them fails the request. On the reservation path the sequence
is NOT retried — a reservation run performs the date-selection exactly once —
and partner attachment and confirmation are never retried (each occurs at
most once in any reservation trace). -/
theorem c5_retry_scope (attempts : Nat → OpenAttempt) (pg : ReservePage)
    (day : String) (n : Int) (t nm mem : String) :
    (∀ v, isOkB (openAttemptBody (attempts 0) none) = false →
      openAttemptBody (attempts 1) none = .ok v →
      getOpenCourts attempts = .ok v) ∧
    ((∀ i, i ≤ 3 → isOkB (openAttemptBody (attempts i) none) = false) →
      isOkB (getOpenCourts attempts) = false) ∧
    (∀ attempts' : Nat → OpenAttempt, (∀ i, i ≤ 3 → attempts i = attempts' i) →
      getOpenCourts attempts = getOpenCourts attempts') ∧
    ((reserveCourtTrace pg day n t nm mem).2.count .clickDate = 1 ∧
     (reserveCourtTrace pg day n t nm mem).2.count .attachPartner ≤ 1 ∧
     (reserveCourtTrace pg day n t nm mem).2.count .confirmB ≤ 1) := by
  refine ⟨?_, ?_, ?_, ?_⟩
  · intro v h0 h1
    rw [getOpenCourts_eq_four]
    cases hb0 : openAttemptBody (attempts 0) none with
    | ok a => rw [hb0] at h0; simp [isOkB] at h0
    | error e => rw [h1]
  · intro h
    rw [getOpenCourts_eq_four]
    cases hb0 : openAttemptBody (attempts 0) none with
    | ok a => have := h 0 (by omega); rw [hb0] at this; simp [isOkB] at this
    | error e0 =>
      cases hb1 : openAttemptBody (attempts 1) none with
      | ok a => have := h 1 (by omega); rw [hb1] at this; simp [isOkB] at this
      | error e1 =>
        cases hb2 : openAttemptBody (attempts 2) none with
        | ok a => have := h 2 (by omega); rw [hb2] at this; simp [isOkB] at this
        | error e2 =>
          cases hb3 : openAttemptBody (attempts 3) none with
          | ok a => have := h 3 (by omega); rw [hb3] at this; simp [isOkB] at this
          | error e3 => simp [isOkB]
  · intro attempts' h
    rw [getOpenCourts_eq_four, getOpenCourts_eq_four,
      h 0 (by omega), h 1 (by omega), h 2 (by omega), h 3 (by omega)]
  · rcases reserveCourtTrace_snd_cases pg day n t nm mem with h | h | h <;>
      rw [h] <;> refine ⟨by decide, by decide, by decide⟩

/-- C5 witness: an open-courts run whose first attempt fails at navigation and
whose second attempt succeeds returns the second attempt's extraction — the
sequence was retried as a unit. -/
theorem c5_retry_scope_witness :
    getOpenCourts (fun i => if i = 0 then attemptNavFail else attemptOk) =
      .ok (some [⟨1, "9:00 AM"⟩]) :=
  (c5_retry_scope (fun i => if i = 0 then attemptNavFail else attemptOk)
      pageW "Monday" 1 "9:00 AM" "Al" "123").1
    (some [⟨1, "9:00 AM"⟩]) rfl rfl

/-- C5 counterexample: the claim as stated is false on the reservation path.
With the requested day's link not found — a failure of the very first step of
the navigate → pick-day sequence — the reservation run raises the date error
after a single date-selection attempt (trace `[navigate, clickDate]`): the
sequence is not retried at all, rather than "retried as a unit up to 3
times". -/
theorem c5_retry_scope_cex :
    reserveCourtTrace pageNoDate "Monday" 1 "9:00 AM" "Al" "123" =
      (.error "Date \"Monday\" not found.", [.navigate, .clickDate]) ∧
    (reserveCourtTrace pageNoDate "Monday" 1 "9:00 AM" "Al" "123").2.count
      .clickDate = 1 :=
  ⟨rfl, rfl⟩

/-- C10: when the day link is reported not found by the `$$` query
(`findAndClickDate` resolves false) on a first attempt whose waits all
succeeded, the retried body returns early without assigning `openCourts`, so
`getOpenCourts` returns the initial `null`, and the endpoint responds 200
with `openCourts: null` — not an empty list. -/
theorem c10_open_courts_null (requestToday : Nat) (d : String)
    (cf : CookieFile) (flow : Nat → Bool) (attempts : Nat → OpenAttempt)
    (hv : validateDay requestToday d = true)
    (hl : isOkB (login cf flow) = true)
    (hnav : (attempts 0).navOk = true) (hpick : (attempts 0).pickerOk = true)
    (hwait : (attempts 0).dayAtWait = true)
    (hquery : (attempts 0).dayAtQuery = false) :
    getOpenCourts attempts = .ok none ∧
    openCourtsHandler requestToday (some d) cf flow attempts =
      .okResp d none ∧
    openStatusOf (.okResp d none) = 200 ∧
    (∀ l : List OpenCourtEntry, OpenResp.okResp d none ≠ .okResp d (some l)) := by
  have hbody : openAttemptBody (attempts 0) none = .ok none := by
    simp [openAttemptBody, hnav, hpick, hwait, hquery]
  have hget : getOpenCourts attempts = .ok none := by
    unfold getOpenCourts getOpenCourtsLoop
    rw [hbody]
  refine ⟨hget, ?_, rfl, by simp⟩
  unfold openCourtsHandler
  cases hlog : login cf flow with
  | error e => rw [hlog] at hl; simp [isOkB] at hl
  | ok r => simp [hv, hlog, hget]

/-- C10 witness: concrete instance — valid day, cookie login, day link absent
at query time on the first attempt. -/
theorem c10_open_courts_null_witness :
    openCourtsHandler 0 (some "Sunday") (.valid ["c"]) (fun _ => true)
      (fun _ => attemptNoDay) = .okResp "Sunday" none :=
  (c10_open_courts_null 0 "Sunday" (.valid ["c"]) (fun _ => true)
      (fun _ => attemptNoDay) (by decide) rfl rfl rfl rfl rfl).2.1

/-- C2: after the Save control is clicked, confirmation fails with the
"Booking restricted" error exactly when some h1 heading on the resulting page
contains "Restriction", and succeeds (Confirmed) otherwise; the handler's
catch block maps a message containing "Booking restricted" to 403 with
success:false, and every other failure message — including the NotFound
slot message — to the generic 500 with success:false. -/
theorem c2_restriction_mapping (headings : List String) :
    (confirmBooking true headings = .error "Booking restricted" ↔
      headings.any (fun h => containsSub h "Restriction") = true) ∧
    (headings.any (fun h => containsSub h "Restriction") = false →
      confirmBooking true headings = .ok ()) ∧
    reserveErrorResponse "Booking restricted" = .restricted ∧
    statusOf .restricted = 403 ∧
    successFlag .restricted = some false ∧
    (∀ e, containsSub e "Booking restricted" = false →
      reserveErrorResponse e = .serverError) ∧
    statusOf .serverError = 500 ∧
    successFlag .serverError = some false ∧
    reserveErrorResponse (slotNotFoundMsg "10:00 AM" 3) = .serverError ∧
    ReserveResp.restricted ≠ ReserveResp.serverError := by
  refine ⟨?_, ?_, by decide, rfl, rfl, ?_, rfl, rfl, by decide, by decide⟩
  · cases hany : headings.any (fun h => containsSub h "Restriction") <;>
      simp [confirmBooking, hany]
  · intro hany
    simp [confirmBooking, hany]
  · intro e he
    simp [reserveErrorResponse, he]

/-- C2 witness: a heading "Restriction: daily limit reached" makes
confirmation return the restriction error. -/
theorem c2_restriction_mapping_witness :
    confirmBooking true ["Restriction: daily limit reached"] =
      .error "Booking restricted" :=
  (c2_restriction_mapping ["Restriction: daily limit reached"]).1.mpr (by decide)

/-- C8 (amended): when the "add player" control does not appear within the
bounded 5-second wait, `addPartnerToBooking` REJECTS (the `waitForSelector`
timeout aborts the reservation with an error); the tolerated,
proceed-without-clicking path arises only when the wait succeeds but the
subsequent handle query finds no link — then the flow continues without
error, having clicked nothing. -/
theorem c8_partner_control (pp : PartnerPage) (nm mem : String) :
    (pp.plusAtWait = false →
      addPartnerToBooking pp nm mem =
        .error "waiting for plus-icon selector failed: timeout 5000ms exceeded") ∧
    (pp.plusAtWait = true → pp.plusAtQuery = false → pp.inputAppears = true →
      pp.listAppears = true → pp.autoItems.contains mem = true →
      addPartnerToBooking pp nm mem = .ok false) := by
  constructor
  · intro h
    simp [addPartnerToBooking, h]
  · intro h1 h2 h3 h4 h5
    have h5m : mem ∈ pp.autoItems := by simpa using h5
    simp [addPartnerToBooking, h1, h2, h3, h4, h5m]

/-- C8 witness: the race case — wait succeeded, handle query empty — proceeds
without error and without clicking. -/
theorem c8_partner_control_witness :
    addPartnerToBooking partnerRace "Al" "123" = .ok false :=
  (c8_partner_control partnerRace "Al" "123").2 rfl rfl rfl rfl (by decide)

/-- C8 counterexample: the claim as stated is false. With the plus-icon
control absent within the bounded wait (and everything downstream healthy),
partner attachment does NOT proceed-with-a-log: it fails, aborting the
reservation. -/
theorem c8_partner_control_cex :
    addPartnerToBooking partnerNoPlus "Al" "123" =
      .error "waiting for plus-icon selector failed: timeout 5000ms exceeded" ∧
    isOkB (addPartnerToBooking partnerNoPlus "Al" "123") = false :=
  ⟨rfl, rfl⟩

/-- C9 (amended): a reserve-court body failing any schema-enforced check — a
startTime not matching the 12-hour pattern, a day outside the window computed
at process startup, or an empty partner field — is rejected with HTTP 400
before any browser session is launched. (Positivity of courtNumber is NOT
among the enforced checks: the schema only requires an integer.) -/
theorem c9_schema_gate (s : Nat) (b : ReqBody) (sc : ReserveScenario)
    (h : matchesTimeRegex b.startTime = false ∨
         (getNextFourDays s).contains b.day = false ∨
         b.partnerName = "" ∨ b.partnerMembershipNumber = "") :
    schemaAccepts s b = false ∧ reserveHandler s b sc = (.badRequest, false) := by
  have hs : schemaAccepts s b = false := by
    rcases h with h | h | h | h
    · simp [schemaAccepts, h]
    · have hm : ¬(b.day ∈ getNextFourDays s) := by simpa using h
      simp [schemaAccepts, hm]
    · simp [schemaAccepts, h]
    · simp [schemaAccepts, h]
  exact ⟨hs, by simp [reserveHandler, hs]⟩

/-- C9 witness: the spec's malformed startTime "25:00 AM" is rejected with
400 and no browser session. -/
theorem c9_schema_gate_witness :
    reserveHandler 0 ⟨"Sunday", 1, "25:00 AM", "Al", "123"⟩ scenarioW =
      (.badRequest, false) :=
  (c9_schema_gate 0 ⟨"Sunday", 1, "25:00 AM", "Al", "123"⟩ scenarioW
    (Or.inl (by decide))).2

/-- C9 counterexample: the claim as stated is false. courtNumber 0 is not a
positive integer, yet the schema accepts the body and the handler proceeds to
launch a browser session and run the workflow (it is not rejected with 400):
the second component — "browser launched" — is true. -/
theorem c9_schema_gate_cex :
    ¬((0 : Int) > 0) ∧
    schemaAccepts 0 ⟨"Sunday", 0, "10:00 AM", "Al", "123"⟩ = true ∧
    (reserveHandler 0 ⟨"Sunday", 0, "10:00 AM", "Al", "123"⟩ scenarioW).2 =
      true :=
  ⟨by decide, by decide, rfl⟩

end CourtBooking
